import Mathlib

/-!
Verification of the rent escalation and historical ledger engine.

The Python sources are embedded shallowly:

* money amounts and index factors are rational numbers (`ℚ`); Python
  `round(x, 2)` becomes `round2` below (round half up on exact rationals;
  every concrete instance used in a theorem is away from a half-cent tie,
  where the two tie-breaking conventions agree);
* calendar dates become `Fecha` (an absolute month index `ym = year * 12 +
  (month - 1)` plus a day), compared lexicographically exactly as Python
  `datetime.date` compares; `relativedelta(months = n)` becomes `addMonths`,
  including the clamping of the day to the length of the target month;
* the month string `"YYYY-MM"` is kept as the month index `ym`: for
  four-digit years the string order used by the Python code coincides with
  the numeric order of the index;
* the inflation DataFrame of `traer_inflacion` becomes a list of
  (month index, monthly rate in percent) pairs sorted ascending, the
  monthly granularity of the published series;
* the BCRA responses consumed by `traer_factor_icl` become lists of
  dated observations; the network itself is a parameter
  `fetchR : Fecha → Fecha → Option ℚ` giving for a period the factor the
  helper would return, `none` standing for a raised exception;
* raising code returns `Except` / `Option`; Python string formatting of
  percentages is dropped (the rational value is kept).
-/

/-- Python `round(x, 2)` on an exact rational: round to the nearest
hundredth, halves up. -/
def round2 (q : ℚ) : ℚ := (round (q * 100) : ℤ) / 100

/-- A calendar date: absolute month index (`year * 12 + month - 1`) and a
day of month.  Mirrors `datetime.date` at the granularity the engine
uses. -/
structure Fecha where
  ym : ℤ
  d : ℤ
deriving DecidableEq, Repr

/-- Date comparison, lexicographic on (month index, day) — the order of
`datetime.date`. -/
def Fecha.leB (a b : Fecha) : Bool :=
  if a.ym < b.ym then true
  else if a.ym = b.ym then decide (a.d ≤ b.d)
  else false

/-- Strict date comparison. -/
def Fecha.ltB (a b : Fecha) : Bool :=
  if a.ym < b.ym then true
  else if a.ym = b.ym then decide (a.d < b.d)
  else false

/-- Number of days of the month holding the given absolute month index,
with the Gregorian leap rule (`calendar.monthrange`). -/
def daysInYm (ym : ℤ) : ℤ :=
  let y := ym.fdiv 12
  let m := ym.fmod 12 + 1
  if m = 2 then
    if y.fmod 4 = 0 ∧ (y.fmod 100 ≠ 0 ∨ y.fmod 400 = 0) then 29 else 28
  else if m = 4 ∨ m = 6 ∨ m = 9 ∨ m = 11 then 30
  else 31

/-- `relativedelta(months = n)`: shift the month index and clamp the day to
the length of the target month. -/
def addMonths (f : Fecha) (n : ℤ) : Fecha :=
  let ym := f.ym + n
  ⟨ym, min f.d (daysInYm ym)⟩

/-- `get_next_month_date` from `historical_calculations.py`: the first day
of the following month. -/
def get_next_month_date (f : Fecha) : Fecha := ⟨f.ym + 1, 1⟩

/-- ASCII lower casing of one character — what Python `str.lower()` does
on the frequency strings at hand. -/
def lowerChar (c : Char) : Char :=
  if 65 ≤ c.val ∧ c.val ≤ 90 then Char.ofNat (c.toNat + 32) else c

/-- ASCII `str.lower()`. -/
def toLowerAscii (s : String) : String := ⟨s.data.map lowerChar⟩

/-- `FREQUENCY_MONTHS_MAP.get(actualizacion.lower(), 3)`: escalation
frequency in months, quarterly fallback for unknown strings
(`constants.py`, and the inline `freq_map` of `calculations.py`). -/
def freq_map (actualizacion : String) : ℕ :=
  match toLowerAscii actualizacion with
  | "trimestral" => 3
  | "cuatrimestral" => 4
  | "semestral" => 6
  | "anual" => 12
  | _ => 3

/-- The index policy of a contract.  The Python code branches on
`indice.upper() == "IPC"`, `== "ICL"`, and otherwise parses the string as
a fixed percentage; `fijo none` stands for a string whose parse raises
`ValueError`. -/
inductive Indice where
  | IPC : Indice
  | ICL : Indice
  | fijo : Option ℚ → Indice
deriving DecidableEq, Repr

/-- The inflation series: (month index, monthly rate in percent), sorted
ascending by month as `traer_inflacion` sorts it. -/
def DfInfl := List (ℤ × ℚ)

/-- Last `n` elements of a list — `pandas.DataFrame.tail(n)`. -/
def lastN {α : Type} (n : ℕ) (xs : List α) : List α := xs.drop (xs.length - n)

/-- `inflacion_acumulada` (`inflation.py`): compound the monthly rates of
the last `meses` observations dated at or before the first day of the
reference month (`hasta` is already that month index). -/
def inflacion_acumulada (df : DfInfl) (hasta : ℤ) (meses : ℕ) : ℚ :=
  let ultimo := lastN meses ((df : List (ℤ × ℚ)).filter (fun p => p.1 ≤ hasta))
  ultimo.foldl (fun acc p => acc * (1 + p.2 / 100)) 1

/-- One observation of the external (ICL) index series as returned by the
BCRA API: a date and a value. -/
structure IclObs where
  fecha : ℤ
  valor : ℚ
deriving DecidableEq, Repr

/-- `traer_factor_icl` (`calculations.py`, body after a successful HTTP
round trip): with `results` the observation list of the response, the code
takes `results[0]` as the period-end value and `results[-1]` as the
period-start value — it assumes the list is reverse-chronological and
performs no order detection.  An empty list or a non-positive start value
raises (`none`). -/
def traer_factor_icl : List IclObs → Option ℚ
  | [] => none
  | first :: rest =>
    let lastObs := rest.getLastD first
    if lastObs.valor ≤ 0 then none
    else some (first.valor / lastObs.valor)

/-- Definition following the words of the spec, for comparison with
`traer_factor_icl`: detect the chronological order of the observation
list, then return value at period end divided by value at period start. -/
def factor_icl_spec : List IclObs → Option ℚ
  | [] => none
  | first :: rest =>
    let lastObs := rest.getLastD first
    let newest := if first.fecha < lastObs.fecha then lastObs else first
    let oldest := if first.fecha < lastObs.fecha then first else lastObs
    if oldest.valor ≤ 0 then none
    else some (newest.valor / oldest.valor)

/-- Result triple of `calcular_precio_base_acumulado`. -/
structure PrecioAcumResult where
  precio : ℚ
  porcentaje : ℚ
  aplica : Bool
deriving DecidableEq, Repr

/-- `calcular_precio_base_acumulado` (`calculations.py` lines 181-256):
full recompute of the base price from the contract start, compounding one
factor per completed cycle.  `fetchR` stands for the ICL API
(`traer_factor_icl` applied to a date range); a `none` is the exception
the loop catches, replaced by the neutral factor 1.0. -/
def calcular_precio_base_acumulado (precio_original : ℚ)
    (actualizacion : String) (indice : Indice) (df_infl : DfInfl)
    (fetchR : Fecha → Fecha → Option ℚ)
    (fecha_inicio fecha_ref : Fecha) : PrecioAcumResult :=
  let freq : ℤ := (freq_map actualizacion : ℤ)
  let meses := fecha_ref.ym - fecha_inicio.ym
  let ciclos := meses.fdiv freq
  let resto := meses.fmod freq
  let aplica : Bool := decide (resto = 0) && decide (0 < ciclos)
  if ciclos = 0 then ⟨precio_original, 0, false⟩
  else
    match indice with
    | .IPC =>
      let n := ciclos.toNat
      let factores := (List.range n).map (fun c =>
        inflacion_acumulada df_infl (fecha_inicio.ym + ((c : ℤ) + 1) * freq)
          (freq_map actualizacion))
      let factor_total := factores.foldl (· * ·) 1
      let porc := if aplica then ((factores.getLastD 1) - 1) * 100 else 0
      ⟨round2 (precio_original * factor_total), porc, aplica⟩
    | .ICL =>
      let n := ciclos.toNat
      let factor_total := (List.range n).foldl (fun acc (c : ℕ) =>
        acc * ((fetchR (addMonths fecha_inicio ((c : ℤ) * freq))
                       (addMonths fecha_inicio (((c : ℤ) + 1) * freq))).getD 1)) 1
      let porc := if aplica then
          match fetchR (addMonths fecha_inicio (((n : ℤ) - 1) * freq))
                       (addMonths fecha_inicio ((n : ℤ) * freq)) with
          | some f => (f - 1) * 100
          | none => 0
        else 0
      ⟨round2 (precio_original * factor_total), porc, aplica⟩
    | .fijo pq =>
      match pq with
      | some pct =>
        ⟨round2 (precio_original * (1 + pct / 100) ^ ciclos),
         if aplica then pct else 0, aplica⟩
      | none => ⟨round2 (precio_original * 1), 0, aplica⟩

/-- `Propiedad` (`models.py`): the identity fields the ledger copies
through (service account numbers are further pass-through strings and are
omitted). -/
structure Propiedad where
  nombre : String
  direccion : String
  propietario : String
  inquilino : String
deriving DecidableEq, Repr

/-- `Contrato` (`models.py`).  `fecha_inicio` is kept as a parsed date
(the source stores the `YYYY-MM-DD` string and parses it at use sites);
`comision_inmo` is the agency percentage already parsed from its string
(`calcular_comision` parses it and raises on malformed input — the
malformed case is not needed by any claim); `indice` is the parsed policy;
`comision` and `deposito` are the installment plan strings with the
`DEFAULT_VALUES` fallback `"Pagado"` already applied. -/
structure Contrato where
  fecha_inicio : Fecha
  duracion_meses : ℤ
  precio_original : ℚ
  actualizacion : String
  indice : Indice
  comision_inmo : ℚ
  comision : String
  deposito : String
deriving DecidableEq, Repr

/-- `CalculationContext` (`domain/historical_models.py`). -/
structure CalculationContext where
  propiedad : Propiedad
  contrato : Contrato
  fecha_actual : Fecha
  fecha_inicio_contrato : Fecha
  meses_desde_inicio : ℤ
  precio_base_actual : ℚ
  municipalidad : ℚ
  luz : ℚ
  gas : ℚ
  expensas : ℚ
  descuento_porcentaje : ℚ
  monto_comision : Option ℚ
  inflacion_df : DfInfl

/-- `calculate_months_since_start` (`historical_calculations.py`):
`(y2 - y1) * 12 + (m2 - m1)`, i.e. the difference of month indices. -/
def calculate_months_since_start (fecha_actual fecha_inicio : Fecha) : ℤ :=
  fecha_actual.ym - fecha_inicio.ym

/-- `should_apply_update` (`historical_calculations.py`): escalate iff a
positive whole number of cycles has elapsed. -/
def should_apply_update (ctx : CalculationContext) : Bool :=
  let freq : ℤ := (freq_map ctx.contrato.actualizacion : ℤ)
  decide (0 < ctx.meses_desde_inicio) && decide (ctx.meses_desde_inicio.fmod freq = 0)

/-- Result of `calculate_price_update`: new base price, the applied
percentage (`none` for the empty string the source returns when nothing
applies), and the escalation flag. -/
structure UpdateResult where
  precio : ℚ
  porcentaje : Option ℚ
  aplica : Bool
deriving DecidableEq, Repr

/-- `calculate_price_update` (`historical_calculations.py` lines 53-82):
one incremental escalation step on the running base price.  The source
wraps the factor computation in a `try`; any failure (ICL fetch error,
malformed fixed percentage) returns the price unchanged with no
escalation.  IPC reads the prefetched inflation series and cannot fail
per cycle in this model. -/
def calculate_price_update (fetchR : Fecha → Fecha → Option ℚ)
    (ctx : CalculationContext) : UpdateResult :=
  if ¬ should_apply_update ctx then ⟨ctx.precio_base_actual, none, false⟩
  else
    let freq : ℤ := (freq_map ctx.contrato.actualizacion : ℤ)
    let res : Option (ℚ × ℚ) :=
      match ctx.contrato.indice with
      | .IPC =>
        let f := inflacion_acumulada ctx.inflacion_df ctx.fecha_actual.ym
          (freq_map ctx.contrato.actualizacion)
        some (f, (f - 1) * 100)
      | .ICL =>
        (fetchR (addMonths ctx.fecha_actual (-freq)) ctx.fecha_actual).map
          (fun f => (f, (f - 1) * 100))
      | .fijo pq => pq.map (fun pct => (1 + pct / 100, pct))
    match res with
    | some (f, p) => ⟨round2 (ctx.precio_base_actual * f), some p, true⟩
    | none => ⟨ctx.precio_base_actual, none, false⟩

/-- `calculate_proximity_months` (`historical_calculations.py` lines
105-129): months to the next escalation and months to renewal. -/
def calculate_proximity_months (ctx : CalculationContext) : ℤ × ℤ :=
  let freq : ℤ := (freq_map ctx.contrato.actualizacion : ℤ)
  let prox_act :=
    if should_apply_update ctx then freq
    else freq - ctx.meses_desde_inicio.fmod freq
  let prox_renov := max 0 (ctx.contrato.duracion_meses - ctx.meses_desde_inicio)
  (prox_act, prox_renov)

/-- `validate_contract_active` (`historical_calculations.py`): the
contract is active while months since start stay below the duration. -/
def validate_contract_active (ctx : CalculationContext) : Bool :=
  decide (ctx.meses_desde_inicio < ctx.contrato.duracion_meses)

/-- `calcular_comision` (`calculations.py`): percentage of the price,
rounded to cents (the percentage string is taken already parsed). -/
def calcular_comision (pct : ℚ) (precio_mes : ℚ) : ℚ :=
  round2 (precio_mes * pct / 100)

/-- `calcular_cuotas_adicionales` (`calculations.py` lines 265-278): the
summed commission and deposit installments without the fixed override. -/
def calcular_cuotas_adicionales (precio_base : ℚ)
    (comision_inquilino deposito : String) (mes_actual : ℤ) : ℚ :=
  let c :=
    if comision_inquilino = "2 cuotas" ∧ mes_actual ≤ 2 then precio_base / 2
    else if comision_inquilino = "3 cuotas" ∧ mes_actual ≤ 3 then precio_base / 3
    else 0
  let d :=
    if deposito = "2 cuotas" ∧ mes_actual ≤ 2 then precio_base / 2
    else if deposito = "3 cuotas" ∧ mes_actual ≤ 3 then precio_base / 3
    else 0
  round2 (c + d)

/-- Detailed installment split returned by `calcular_cuotas_detalladas`
(the human readable description string is omitted). -/
structure CuotasDetalle where
  cuotas_comision : ℚ
  cuotas_deposito : ℚ
  total_cuotas : ℚ
deriving DecidableEq, Repr

/-- Modelled from the spec: `calcular_cuotas_detalladas` is imported by
`record_generator.py` from `services.calculations` but no definition of it
exists under src/; only its caller and the functional tests of the
five-argument `calcular_cuotas_adicionales` remain.  Per the spec (§4.3)
the commission leg divides the fixed override amount when one is present,
the deposit leg always divides the base price, plans pay `base / 2` while
the month of contract is at most 2 and `base / 3` while it is at most 3,
and amounts are rounded at the point of combination, not per term.  Per
the functional tests a zero override behaves like an absent one (Python
falsiness). -/
def calcular_cuotas_detalladas (precio_base : ℚ)
    (comision deposito : String) (mes_actual : ℤ)
    (monto_comision : Option ℚ) : CuotasDetalle :=
  let base_comision :=
    match monto_comision with
    | some m => if m = 0 then precio_base else m
    | none => precio_base
  let c :=
    if comision = "2 cuotas" ∧ mes_actual ≤ 2 then base_comision / 2
    else if comision = "3 cuotas" ∧ mes_actual ≤ 3 then base_comision / 3
    else 0
  let d :=
    if deposito = "2 cuotas" ∧ mes_actual ≤ 2 then precio_base / 2
    else if deposito = "3 cuotas" ∧ mes_actual ≤ 3 then precio_base / 3
    else 0
  ⟨c, d, round2 (c + d)⟩

/-- `HistoricalRecord` (`domain/historical_models.py`), restricted to the
computed fields: the display strings (`descuento`, `detalle_cuotas`), the
copied service identifiers (`nis`, `gas_nro`, `padron`) and the contract
end date string are verbatim copies or string renderings of values already
present here. -/
structure Registro where
  nombre_inmueble : String
  dir_inmueble : String
  inquilino : String
  propietario : String
  mes_actual : ℤ
  precio_final : ℚ
  precio_original : ℚ
  precio_descuento : ℚ
  cuotas_adicionales : ℚ
  cuotas_comision : ℚ
  cuotas_deposito : ℚ
  municipalidad : ℚ
  luz : ℚ
  gas : ℚ
  expensas : ℚ
  comision_inmo : ℚ
  pago_prop : ℚ
  actualizacion : Bool
  porc_actual : Option ℚ
  meses_prox_actualizacion : ℤ
  meses_prox_renovacion : ℤ
deriving DecidableEq, Repr

/-- `generate_monthly_record` (`record_generator.py` lines 27-137):
escalate, discount, compute both agency commission legs, split the
installments, and assemble the record of one month. -/
def generate_monthly_record (fetchR : Fecha → Fecha → Option ℚ)
    (ctx : CalculationContext) : Registro :=
  let upd := calculate_price_update fetchR ctx
  let factor_descuento := 1 - ctx.descuento_porcentaje / 100
  let precio_descuento := round2 (upd.precio * factor_descuento)
  let comision_inmo_alquiler :=
    calcular_comision ctx.contrato.comision_inmo precio_descuento
  let cuotas := calcular_cuotas_detalladas precio_descuento
    ctx.contrato.comision ctx.contrato.deposito
    (ctx.meses_desde_inicio + 1) ctx.monto_comision
  let comision_inmo_deposito :=
    if 0 < cuotas.cuotas_deposito then
      calcular_comision ctx.contrato.comision_inmo cuotas.cuotas_deposito
    else 0
  let comision_inmo := round2 (comision_inmo_alquiler + comision_inmo_deposito)
  let pago_prop := round2 (precio_descuento + cuotas.cuotas_deposito
    + ctx.municipalidad + ctx.luz + ctx.gas + ctx.expensas - comision_inmo)
  let precio_final := precio_descuento + cuotas.total_cuotas
    + ctx.municipalidad + ctx.luz + ctx.gas + ctx.expensas
  let prox := calculate_proximity_months ctx
  { nombre_inmueble := ctx.propiedad.nombre
    dir_inmueble := ctx.propiedad.direccion
    inquilino := ctx.propiedad.inquilino
    propietario := ctx.propiedad.propietario
    mes_actual := ctx.fecha_actual.ym
    precio_final := precio_final
    precio_original := upd.precio
    precio_descuento := precio_descuento
    cuotas_adicionales := cuotas.total_cuotas
    cuotas_comision := cuotas.cuotas_comision
    cuotas_deposito := cuotas.cuotas_deposito
    municipalidad := ctx.municipalidad
    luz := ctx.luz
    gas := ctx.gas
    expensas := ctx.expensas
    comision_inmo := comision_inmo
    pago_prop := pago_prop
    actualizacion := upd.aplica
    porc_actual := if upd.aplica then upd.porcentaje else none
    meses_prox_actualizacion := prox.1
    meses_prox_renovacion := prox.2 }

/-- The optional per-row amounts extracted by
`_extract_additional_services` (`historical_service.py`). -/
structure Servicios where
  municipalidad : ℚ
  luz : ℚ
  gas : ℚ
  expensas : ℚ
  descuento_porcentaje : ℚ
  monto_comision : Option ℚ
deriving DecidableEq, Repr

/-- `create_context_for_month` (`record_generator.py`). -/
def create_context_for_month (propiedad : Propiedad) (contrato : Contrato)
    (fecha_actual : Fecha) (precio_base_actual : ℚ) (df : DfInfl)
    (serv : Servicios) : CalculationContext :=
  { propiedad := propiedad
    contrato := contrato
    fecha_actual := fecha_actual
    fecha_inicio_contrato := contrato.fecha_inicio
    meses_desde_inicio :=
      calculate_months_since_start fecha_actual contrato.fecha_inicio
    precio_base_actual := precio_base_actual
    municipalidad := serv.municipalidad
    luz := serv.luz
    gas := serv.gas
    expensas := serv.expensas
    descuento_porcentaje := serv.descuento_porcentaje
    monto_comision := serv.monto_comision
    inflacion_df := df }

/-- `validate_context` (`record_generator.py`): active contract, positive
running base price, month not before the contract start. -/
def validate_context (ctx : CalculationContext) : Bool :=
  validate_contract_active ctx
  && decide (0 < ctx.precio_base_actual)
  && ! Fecha.ltB ctx.fecha_actual ctx.fecha_inicio_contrato

/-- `_generate_missing_months` (`historical_service.py` lines 269-307):
walk month by month from the resume date to the limit, generating one
record per month and feeding the escalated base price of each month into
the next; stop early as soon as the context fails validation. -/
def generate_missing_months (propiedad : Propiedad) (contrato : Contrato)
    (df : DfInfl) (fetchR : Fecha → Fecha → Option ℚ) (serv : Servicios)
    (fecha_limite : Fecha) (fecha_actual : Fecha)
    (precio_base_actual : ℚ) : List Registro :=
  if Fecha.leB fecha_actual fecha_limite then
    let ctx := create_context_for_month propiedad contrato fecha_actual
      precio_base_actual df serv
    if validate_context ctx then
      let registro := generate_monthly_record fetchR ctx
      registro :: generate_missing_months propiedad contrato df fetchR serv
        fecha_limite (get_next_month_date fecha_actual) registro.precio_original
    else []
  else []
termination_by (fecha_limite.ym + 1 - fecha_actual.ym).toNat
decreasing_by
  simp only [Fecha.leB, get_next_month_date] at *
  split at *
  · omega
  · split at *
    · omega
    · simp_all

/-- One row of the master sheet (`load_maestro_data`), with the loose
coercions of `_create_entities_from_data` and
`_extract_additional_services` already applied per field: `none` models a
missing or blank cell (and, for the typed fields, a cell whose `int` /
`float` / `strptime` conversion would raise — those conversions raise
inside the same per-property boundary as the required-field check). -/
structure Fila where
  nombre_inmueble : Option String
  dir_inmueble : Option String
  inquilino : Option String
  propietario : Option String
  precio_original : Option ℚ
  fecha_inicio_contrato : Option Fecha
  duracion_meses : Option ℤ
  actualizacion : Option String
  indice : Option Indice
  comision_inmo : Option ℚ
  comision : Option String
  deposito : Option String
  municipalidad : Option ℚ
  luz : Option ℚ
  gas : Option ℚ
  expensas : Option ℚ
  descuento : Option ℚ
  monto_comision : Option ℚ
deriving DecidableEq

/-- A required cell is missing when absent or, for a string cell, blank
after stripping (`_create_entities_from_data`); a string strips to the
empty string exactly when all its characters are whitespace. -/
def blankStr : Option String → Bool
  | none => true
  | some s => s.data.all (fun c => c = ' ' ∨ c = '\t' ∨ c = '\n' ∨ c = '\r')

/-- The `REQUIRED_FIELDS` loop of `_create_entities_from_data`: the name
of the first missing required field, if any, in the order of
`constants.REQUIRED_FIELDS`. -/
def required_field_missing (f : Fila) : Option String :=
  if blankStr f.nombre_inmueble then some "nombre_inmueble"
  else if blankStr f.dir_inmueble then some "dir_inmueble"
  else if blankStr f.inquilino then some "inquilino"
  else if blankStr f.propietario then some "propietario"
  else if f.precio_original.isNone then some "precio_original"
  else if f.fecha_inicio_contrato.isNone then some "fecha_inicio_contrato"
  else if f.duracion_meses.isNone then some "duracion_meses"
  else if blankStr f.actualizacion then some "actualizacion"
  else if f.indice.isNone then some "indice"
  else if f.comision_inmo.isNone then some "comision_inmo"
  else none

/-- `_create_entities_from_data` (`historical_service.py` lines 181-209):
raise on the first missing required field, otherwise build the entities.
After a successful check the `getD` defaults are never used. -/
def create_entities_from_data (f : Fila) :
    Except String (Propiedad × Contrato) :=
  match required_field_missing f with
  | some campo => .error ("Campo obligatorio faltante: " ++ campo)
  | none =>
    .ok ({ nombre := f.nombre_inmueble.getD ""
           direccion := f.dir_inmueble.getD ""
           propietario := f.propietario.getD ""
           inquilino := f.inquilino.getD "" },
         { fecha_inicio := f.fecha_inicio_contrato.getD ⟨0, 1⟩
           duracion_meses := f.duracion_meses.getD 0
           precio_original := f.precio_original.getD 0
           actualizacion := f.actualizacion.getD ""
           indice := f.indice.getD (.fijo none)
           comision_inmo := f.comision_inmo.getD 0
           comision := f.comision.getD "Pagado"
           deposito := f.deposito.getD "Pagado" })

/-- `_extract_additional_services` (`historical_service.py`): missing
amounts default to zero; `monto_comision` keeps the `None` default, and a
zero or empty cell is falsy and also yields `None` (`safe_float`). -/
def extract_additional_services (f : Fila) : Servicios :=
  { municipalidad := f.municipalidad.getD 0
    luz := f.luz.getD 0
    gas := f.gas.getD 0
    expensas := f.expensas.getD 0
    descuento_porcentaje := f.descuento.getD 0
    monto_comision := f.monto_comision.bind
      (fun q => if q = 0 then none else some q) }

/-- `PropertyHistoricalData` (`domain/historical_models.py`): resume state
of one property.  `ultimo_mes = none` models a blank last-month cell
(`ultima_fecha` returning `None`). -/
structure PropertyHistoricalData where
  nombre_propiedad : String
  ultimo_mes : Option ℤ
  ultimo_precio_base : ℚ
  registros_existentes : List Registro
deriving DecidableEq

/-- `_determine_starting_point` (`historical_service.py` lines 232-267):
existing records, resume price and resume date.  With history the resume
date is the month after the last recorded month; without history the
contract start with the original price. -/
def determine_starting_point (contrato : Contrato)
    (hist : Option PropertyHistoricalData) :
    List Registro × ℚ × Fecha :=
  match hist with
  | some info =>
    let fecha_inicial : Fecha :=
      match info.ultimo_mes with
      | some u => ⟨u + 1, 1⟩
      | none => contrato.fecha_inicio
    (info.registros_existentes, info.ultimo_precio_base, fecha_inicial)
  | none => ([], contrato.precio_original, contrato.fecha_inicio)

/-- `process_property` (`historical_service.py` lines 135-179): validate
the row, refuse contracts starting after the limit, pick the resume
point, generate the missing months, and return existing plus new
records. -/
def process_property (fecha_limite : Fecha) (df : DfInfl)
    (fetchR : Fecha → Fecha → Option ℚ)
    (hist : String → Option PropertyHistoricalData) (f : Fila) :
    Except String (List Registro) :=
  match create_entities_from_data f with
  | .error e => .error e
  | .ok (propiedad, contrato) =>
    if Fecha.ltB fecha_limite contrato.fecha_inicio then
      .error "Contrato inicia después de fecha límite"
    else
      let serv := extract_additional_services f
      let start := determine_starting_point contrato (hist propiedad.nombre)
      .ok (start.1 ++ generate_missing_months propiedad contrato df fetchR
        serv fecha_limite start.2.2 start.2.1)

/-- `HistoricalSummary` (`domain/historical_models.py`), the counters the
batch loop maintains. -/
structure Summary where
  total_registros : ℕ
  propiedades_procesadas : ℕ
  propiedades_omitidas : ℕ
  errores : List String
deriving DecidableEq, Repr

/-- The empty summary a run starts from. -/
def Summary.empty : Summary := ⟨0, 0, 0, []⟩

/-- One iteration of the per-property loop of `generate_historical_until`
(`historical_service.py` lines 95-126): on success extend the collected
records, on any exception record one error entry against the property and
continue. -/
def ghu_step (fecha_limite : Fecha) (df : DfInfl)
    (fetchR : Fecha → Fecha → Option ℚ)
    (hist : String → Option PropertyHistoricalData)
    (st : List Registro × Summary) (f : Fila) :
    List Registro × Summary :=
  match process_property fecha_limite df fetchR hist f with
  | .ok registros =>
    (st.1 ++ registros,
     { st.2 with
       total_registros := st.2.total_registros + registros.length
       propiedades_procesadas := st.2.propiedades_procesadas + 1 })
  | .error e =>
    (st.1,
     { st.2 with
       propiedades_omitidas := st.2.propiedades_omitidas + 1
       errores := st.2.errores
         ++ [(f.nombre_inmueble.getD "Desconocido") ++ ": " ++ e] })

/-- `generate_historical_until` (`historical_service.py`): fold the
per-property step over the master rows, starting from the empty state. -/
def generate_historical_until (fecha_limite : Fecha) (df : DfInfl)
    (fetchR : Fecha → Fecha → Option ℚ)
    (hist : String → Option PropertyHistoricalData)
    (filas : List Fila) : List Registro × Summary :=
  filas.foldl (ghu_step fecha_limite df fetchR hist) ([], Summary.empty)

/-- One step of `read_existing_historical` (`historical_data.py` lines
28-67): record the row under its property, keeping the chronologically
last month and its base price, and appending the row to the existing
records of the property. -/
def insert_historical_record :
    List (String × PropertyHistoricalData) → Registro →
    List (String × PropertyHistoricalData)
  | [], r =>
    [(r.nombre_inmueble,
      { nombre_propiedad := r.nombre_inmueble
        ultimo_mes := some r.mes_actual
        ultimo_precio_base := r.precio_original
        registros_existentes := [r] })]
  | (k, d) :: rest, r =>
    if k = r.nombre_inmueble then
      let d1 :=
        if (match d.ultimo_mes with
            | some u => decide (u < r.mes_actual)
            | none => true) then
          { d with ultimo_mes := some r.mes_actual
                   ultimo_precio_base := r.precio_original }
        else d
      (k, { d1 with
            registros_existentes := d1.registros_existentes ++ [r] }) :: rest
    else (k, d) :: insert_historical_record rest r

/-- `read_existing_historical` (`historical_data.py`): per-property resume
state built from the rows already on the sheet. -/
def read_existing_historical (sheet : List Registro) :
    List (String × PropertyHistoricalData) :=
  sheet.foldl insert_historical_record []

/-- The sort key of `write_historical_records`:
`(nombre_inmueble, mes_actual)` compared lexicographically, as Python
compares the key tuples (month strings in `YYYY-MM` order numerically). -/
def RecLe (a b : Registro) : Prop :=
  a.nombre_inmueble < b.nombre_inmueble
  ∨ (a.nombre_inmueble = b.nombre_inmueble ∧ a.mes_actual ≤ b.mes_actual)

instance : DecidableRel RecLe := fun a b => by
  unfold RecLe
  infer_instance

instance : IsTotal Registro RecLe := by
  constructor
  intro a b
  unfold RecLe
  rcases lt_trichotomy a.nombre_inmueble b.nombre_inmueble with h | h | h
  · exact Or.inl (Or.inl h)
  · rcases le_total a.mes_actual b.mes_actual with h2 | h2
    · exact Or.inl (Or.inr ⟨h, h2⟩)
    · exact Or.inr (Or.inr ⟨h.symm, h2⟩)
  · exact Or.inr (Or.inl h)

instance : IsTrans Registro RecLe := by
  constructor
  intro a b c hab hbc
  unfold RecLe at *
  rcases hab with h1 | ⟨h1, h1m⟩ <;> rcases hbc with h2 | ⟨h2, h2m⟩
  · exact Or.inl (h1.trans h2)
  · exact Or.inl (h2 ▸ h1)
  · exact Or.inl (h1 ▸ h2)
  · exact Or.inr ⟨h1.trans h2, h1m.trans h2m⟩

/-- The sorting step of `write_historical_records` (`historical_data.py`
lines 80-113): a stable sort of the collected records by
(property name, month). -/
def sortRecords (rs : List Registro) : List Registro :=
  List.insertionSort RecLe rs

/-- The write step of a run (`generate_historical_until` plus
`write_historical_records`): the collected records are written, sorted,
over a cleared sheet — but only when at least one record was collected;
with no records the sheet keeps its prior content. -/
def run_final_sheet (fecha_limite : Fecha) (df : DfInfl)
    (fetchR : Fecha → Fecha → Option ℚ) (prior_sheet : List Registro)
    (filas : List Fila) : List Registro :=
  let hist := fun n => (read_existing_historical prior_sheet).lookup n
  let out := generate_historical_until fecha_limite df fetchR hist filas
  if out.1.isEmpty then prior_sheet else sortRecords out.1

/-- The frequency map only produces the four configured cycle lengths
(with the quarterly fallback). -/
theorem freq_map_cases (s : String) :
    freq_map s = 3 ∨ freq_map s = 4 ∨ freq_map s = 6 ∨ freq_map s = 12 := by
  unfold freq_map
  split <;> simp

/-- Every escalation frequency is positive. -/
theorem freq_map_pos (s : String) : 0 < freq_map s := by
  rcases freq_map_cases s with h | h | h | h <;> omega

/-- With a zero floor remainder, the floor quotient is positive exactly
when the dividend is. -/
theorem fdiv_pos_iff_of_fmod_eq_zero (m f : ℤ) (hf : 0 < f)
    (h : m.fmod f = 0) : 0 < m.fdiv f ↔ 0 < m := by
  have key : f * m.fdiv f = m := by
    have h2 := Int.fdiv_add_fmod m f
    omega
  constructor
  · intro hq
    nlinarith
  · intro hm
    by_contra hq
    push_neg at hq
    nlinarith

/-- C10: with a pandas DataFrame of monthly inflation observations none of
which is dated on or before the first day of the reference month, the
composite inflation factor of `inflacion_acumulada` is exactly 1 (the
empty product), so the policy yields a neutral factor rather than an
error. -/
theorem c10_inflacion_sin_datos_neutral (df : List (ℤ × ℚ)) (hasta : ℤ)
    (meses : ℕ) (h : ∀ p ∈ df, hasta < p.1) :
    inflacion_acumulada df hasta meses = 1 := by
  unfold inflacion_acumulada lastN
  have hfil : df.filter (fun p => decide (p.1 ≤ hasta)) = [] := by
    rw [List.filter_eq_nil_iff]
    intro p hp
    simpa using not_le.mpr (h p hp)
  rw [hfil]
  simp

/-- Witness for C10 at a concrete series and reference month. -/
theorem c10_witness :
    inflacion_acumulada [((5 : ℤ), (3 : ℚ))] 2 4 = 1 :=
  c10_inflacion_sin_datos_neutral [((5 : ℤ), (3 : ℚ))] 2 4 (by decide)

/-- C4 (amended): on a reverse-chronological (newest first) observation
list — the order the BCRA API documents and the code assumes —
`traer_factor_icl` returns value at period end divided by value at period
start, agreeing with the order-detecting reading of the spec; the result
is `some` exactly when the start value is positive, independently of the
[0.5, 3.0] sanity band, whose violation only warns.  The code performs no
order detection, so the claim as stated fails on an oldest-first list
(see the counterexample). -/
theorem c4_icl_factor_newest_first (first : IclObs) (rest : List IclObs)
    (hrev : (first :: rest).Pairwise (fun a b => b.fecha ≤ a.fecha)) :
    traer_factor_icl (first :: rest) = factor_icl_spec (first :: rest)
    ∧ ((traer_factor_icl (first :: rest)).isSome ↔
        0 < (rest.getLastD first).valor)
    ∧ (0 < (rest.getLastD first).valor →
        traer_factor_icl (first :: rest) =
          some (first.valor / (rest.getLastD first).valor)) := by
  have hle : (rest.getLastD first).fecha ≤ first.fecha := by
    rcases List.mem_cons.mp (List.getLastD_mem_cons rest first) with h | h
    · rw [h]
    · exact (List.pairwise_cons.mp hrev).1 _ h
  refine ⟨?_, ?_, ?_⟩
  · simp only [traer_factor_icl, factor_icl_spec]
    simp only [if_neg (not_lt.mpr hle)]
  · simp only [traer_factor_icl]
    constructor
    · intro h
      by_contra hpos
      rw [if_pos (not_lt.mp hpos)] at h
      simp at h
    · intro hpos
      rw [if_neg (not_le.mpr hpos)]
      simp
  · intro hpos
    simp only [traer_factor_icl]
    rw [if_neg (not_le.mpr hpos)]

/-- Witness for C4 on a concrete newest-first series. -/
theorem c4_witness :
    traer_factor_icl [⟨1, 110⟩, ⟨0, 100⟩] =
      factor_icl_spec [⟨1, 110⟩, ⟨0, 100⟩]
    ∧ traer_factor_icl [⟨1, 110⟩, ⟨0, 100⟩] = some (110 / 100) := by
  have h := c4_icl_factor_newest_first ⟨1, 110⟩ [⟨0, 100⟩] (by norm_num)
  refine ⟨h.1, ?_⟩
  have h2 := h.2.2 (by norm_num)
  simpa using h2

/-- Counterexample to C4 as stated: on an oldest-first series the code
divides the oldest value by the newest one — the inverse of value at
period end over value at period start — because it picks `results[0]` and
`results[-1]` without detecting the chronological order. -/
theorem c4_counterexample :
    traer_factor_icl [⟨0, 100⟩, ⟨1, 110⟩] = some (10 / 11)
    ∧ factor_icl_spec [⟨0, 100⟩, ⟨1, 110⟩] = some (11 / 10)
    ∧ traer_factor_icl [⟨0, 100⟩, ⟨1, 110⟩] ≠
        factor_icl_spec [⟨0, 100⟩, ⟨1, 110⟩] := by
  refine ⟨?_, ?_, ?_⟩ <;> norm_num [traer_factor_icl, factor_icl_spec]

/-- The escalation flag of the full recompute engine, extracted: remainder
zero and a positive number of completed cycles, whatever the index policy
and price inputs. -/
theorem aplica_eq_decide (P0 : ℚ) (act : String) (ind : Indice)
    (df : List (ℤ × ℚ)) (fetchR : Fecha → Fecha → Option ℚ)
    (inicio ref : Fecha) :
    (calcular_precio_base_acumulado P0 act ind df fetchR inicio ref).aplica =
      (decide ((ref.ym - inicio.ym).fmod (freq_map act) = 0)
        && decide (0 < (ref.ym - inicio.ym).fdiv (freq_map act))) := by
  simp only [calcular_precio_base_acumulado]
  split
  · rename_i h
    simp [h]
  · cases ind with
    | IPC => rfl
    | ICL => rfl
    | fijo pq => cases pq <;> rfl

/-- C3: the escalation flag reported for a month is true exactly when the
months since the contract start are a positive multiple of the frequency —
in both the full recompute engine and the incremental
`should_apply_update`; under a quarterly contract it is false at months
0, 1, 2 and true at months 3, 6, 9. -/
theorem c3_escalation_flag_iff :
    (∀ (P0 : ℚ) (act : String) (ind : Indice) (df : List (ℤ × ℚ))
       (fetchR : Fecha → Fecha → Option ℚ) (inicio ref : Fecha),
      ((calcular_precio_base_acumulado P0 act ind df fetchR inicio ref).aplica
          = true ↔
        (ref.ym - inicio.ym).fmod (freq_map act) = 0
          ∧ 0 < ref.ym - inicio.ym))
    ∧ (∀ ctx : CalculationContext,
        (should_apply_update ctx = true ↔
          ctx.meses_desde_inicio.fmod (freq_map ctx.contrato.actualizacion) = 0
            ∧ 0 < ctx.meses_desde_inicio))
    ∧ (∀ m : ℤ, m ∈ ([0, 1, 2] : List ℤ) →
        (calcular_precio_base_acumulado 100000 "trimestral" (.fijo (some 10))
          [] (fun _ _ => none) ⟨0, 1⟩ ⟨m, 1⟩).aplica = false)
    ∧ (∀ m : ℤ, m ∈ ([3, 6, 9] : List ℤ) →
        (calcular_precio_base_acumulado 100000 "trimestral" (.fijo (some 10))
          [] (fun _ _ => none) ⟨0, 1⟩ ⟨m, 1⟩).aplica = true) := by
  have hpos : ∀ act : String, (0 : ℤ) < (freq_map act : ℤ) := by
    intro act
    exact_mod_cast freq_map_pos act
  refine ⟨?_, ?_, ?_, ?_⟩
  · intro P0 act ind df fetchR inicio ref
    rw [aplica_eq_decide]
    simp only [Bool.and_eq_true, decide_eq_true_eq]
    constructor
    · rintro ⟨h1, h2⟩
      exact ⟨h1, (fdiv_pos_iff_of_fmod_eq_zero _ _ (hpos act) h1).mp h2⟩
    · rintro ⟨h1, h2⟩
      exact ⟨h1, (fdiv_pos_iff_of_fmod_eq_zero _ _ (hpos act) h1).mpr h2⟩
  · intro ctx
    unfold should_apply_update
    simp only [Bool.and_eq_true, decide_eq_true_eq]
    tauto
  · intro m hm
    fin_cases hm <;> (rw [aplica_eq_decide]; decide)
  · intro m hm
    fin_cases hm <;> (rw [aplica_eq_decide]; decide)

/-- C2 (amended): under the fixed percentage policy with
`cycles = months / frequency`, the full recompute engine returns
`round2 (original * (1 + pct / 100) ^ cycles)` whenever at least one cycle
has completed; with zero completed cycles it returns the original price
unchanged — without the final rounding the formula of the claim would
apply (see the counterexample).  The concrete instance of the claim holds:
price 100000, quarterly, 10 percent, month 6 gives 121000.00 with
last-cycle percentage 10 and an escalation flag. -/
theorem c2_fixed_pct_closed_form :
    (∀ (P0 pct : ℚ) (act : String) (df : List (ℤ × ℚ))
       (fetchR : Fecha → Fecha → Option ℚ) (n : ℕ),
      (n / freq_map act = 0 →
        (calcular_precio_base_acumulado P0 act (.fijo (some pct)) df fetchR
          ⟨0, 1⟩ ⟨(n : ℤ), 1⟩).precio = P0)
      ∧ (0 < n / freq_map act →
        (calcular_precio_base_acumulado P0 act (.fijo (some pct)) df fetchR
          ⟨0, 1⟩ ⟨(n : ℤ), 1⟩).precio
          = round2 (P0 * (1 + pct / 100) ^ (n / freq_map act))))
    ∧ ((calcular_precio_base_acumulado 100000 "trimestral" (.fijo (some 10))
          [] (fun _ _ => none) ⟨0, 1⟩ ⟨6, 1⟩).precio = 121000
        ∧ (calcular_precio_base_acumulado 100000 "trimestral" (.fijo (some 10))
          [] (fun _ _ => none) ⟨0, 1⟩ ⟨6, 1⟩).porcentaje = 10
        ∧ (calcular_precio_base_acumulado 100000 "trimestral" (.fijo (some 10))
          [] (fun _ _ => none) ⟨0, 1⟩ ⟨6, 1⟩).aplica = true) := by
  have main : ∀ (P0 pct : ℚ) (act : String) (df : List (ℤ × ℚ))
      (fetchR : Fecha → Fecha → Option ℚ) (n : ℕ),
      (n / freq_map act = 0 →
        (calcular_precio_base_acumulado P0 act (.fijo (some pct)) df fetchR
          ⟨0, 1⟩ ⟨(n : ℤ), 1⟩).precio = P0)
      ∧ (0 < n / freq_map act →
        (calcular_precio_base_acumulado P0 act (.fijo (some pct)) df fetchR
          ⟨0, 1⟩ ⟨(n : ℤ), 1⟩).precio
          = round2 (P0 * (1 + pct / 100) ^ (n / freq_map act))) := by
    intro P0 pct act df fetchR n
    have hf : (0 : ℤ) < (freq_map act : ℤ) := by
      exact_mod_cast freq_map_pos act
    have hdiv : ((n : ℤ) - 0).fdiv (freq_map act : ℤ)
        = ((n / freq_map act : ℕ) : ℤ) := by
      rw [sub_zero, Int.fdiv_eq_ediv _ (le_of_lt hf)]
      exact (Int.natCast_div n (freq_map act)).symm
    constructor
    · intro h0
      simp only [calcular_precio_base_acumulado]
      rw [if_pos]
      rw [hdiv, h0]
      rfl
    · intro hposc
      simp only [calcular_precio_base_acumulado]
      rw [if_neg]
      · show round2 (P0 * (1 + pct / 100)
          ^ (((n : ℤ) - 0).fdiv (freq_map act : ℤ))) = _
        rw [hdiv, zpow_natCast]
      · rw [hdiv]
        exact_mod_cast (by omega : ¬ (n / freq_map act = 0))
  refine ⟨main, ?_, ?_, ?_⟩
  · have h := (main 100000 10 "trimestral" [] (fun _ _ => none) 6).2 (by decide)
    rw [show ((6 : ℕ) : ℤ) = (6 : ℤ) by norm_num] at h
    rw [h, show (6 : ℕ) / freq_map "trimestral" = 2 by decide]
    norm_num [round2, round_eq]
  · simp only [calcular_precio_base_acumulado]
    rw [if_neg (by decide)]
    show (if (decide (((6 : ℤ) - 0).fmod (freq_map "trimestral") = 0)
        && decide (0 < ((6 : ℤ) - 0).fdiv (freq_map "trimestral"))) = true
      then (10 : ℚ) else 0) = 10
    rw [if_pos (by decide)]
  · rw [aplica_eq_decide]
    decide

/-- Witness for C2 at the instance of the claim and at a zero-cycle
month. -/
theorem c2_witness :
    (calcular_precio_base_acumulado 100000 "trimestral" (.fijo (some 10)) []
      (fun _ _ => none) ⟨0, 1⟩ ⟨((6 : ℕ) : ℤ), 1⟩).precio
      = round2 (100000 * (1 + (10 : ℚ) / 100) ^ ((6 : ℕ) / freq_map "trimestral"))
    ∧ (calcular_precio_base_acumulado 100000 "trimestral" (.fijo (some 5)) []
      (fun _ _ => none) ⟨0, 1⟩ ⟨((2 : ℕ) : ℤ), 1⟩).precio = 100000 :=
  ⟨(c2_fixed_pct_closed_form.1 100000 10 "trimestral" []
      (fun _ _ => none) 6).2 (by decide),
   (c2_fixed_pct_closed_form.1 100000 5 "trimestral" []
      (fun _ _ => none) 2).1 (by decide)⟩

/-- Counterexample to C2 as stated: at months = 0 (zero completed cycles)
the engine returns the original price unchanged and unrounded, while the
closed form of the claim rounds it; an original price of 0.007 separates
the two. -/
theorem c2_counterexample :
    (calcular_precio_base_acumulado (7 / 1000) "trimestral" (.fijo (some 10))
      [] (fun _ _ => none) ⟨0, 1⟩ ⟨0, 1⟩).precio = 7 / 1000
    ∧ round2 ((7 / 1000) * (1 + (10 : ℚ) / 100) ^ ((0 : ℕ) / 3)) = 1 / 100
    ∧ (7 / 1000 : ℚ) ≠ 1 / 100 := by
  refine ⟨?_, ?_, by norm_num⟩
  · simp only [calcular_precio_base_acumulado]
    rw [if_pos (by decide)]
  · norm_num [round2, round_eq]

/-- A sample property used to instantiate theorems at concrete inputs. -/
def propSample : Propiedad := ⟨"Casa A", "Calle 1", "Dueno 1", "Inquilino 1"⟩

/-- A sample quarterly fixed-percentage contract: 12 months from month
index 0, original price 100000, 10 percent per quarter. -/
def contratoSample : Contrato :=
  ⟨⟨0, 1⟩, 12, 100000, "trimestral", .fijo (some 10), 10, "Pagado", "Pagado"⟩

/-- Sample pass-through amounts: none. -/
def servSample : Servicios := ⟨0, 0, 0, 0, 0, none⟩

/-- The calculation context of the sample contract at a given number of
months since start. -/
def ctxAt (meses : ℤ) : CalculationContext :=
  create_context_for_month propSample contratoSample ⟨meses, 1⟩ 100000 []
    servSample

/-- Every record the month loop emits was validated: its months to
renewal counter is at least 1 (the contract was still active that
month). -/
theorem gen_records_renewal_pos (propiedad : Propiedad) (contrato : Contrato)
    (df : DfInfl) (fetchR : Fecha → Fecha → Option ℚ) (serv : Servicios)
    (lim : Fecha) (fecha : Fecha) (p : ℚ) :
    ∀ r ∈ generate_missing_months propiedad contrato df fetchR serv lim
      fecha p, 1 ≤ r.meses_prox_renovacion := by
  refine generate_missing_months.induct propiedad contrato df fetchR serv lim
    (fun fecha p => ∀ r ∈ generate_missing_months propiedad contrato df fetchR
      serv lim fecha p, 1 ≤ r.meses_prox_renovacion)
    ?_ ?_ ?_ fecha p
  · intro fecha p hle ctx hval registro ih
    rw [generate_missing_months.eq_def, if_pos hle]
    show ∀ r ∈ (if validate_context ctx then registro ::
      generate_missing_months propiedad contrato df fetchR serv lim
        (get_next_month_date fecha) registro.precio_original else []),
      1 ≤ r.meses_prox_renovacion
    rw [if_pos hval]
    intro r hr
    rcases List.mem_cons.mp hr with rfl | hr
    · have hact : ctx.meses_desde_inicio < ctx.contrato.duracion_meses := by
        have h1 : validate_contract_active ctx = true := by
          simp only [validate_context, Bool.and_eq_true] at hval
          exact hval.1.1
        simpa [validate_contract_active] using h1
      show 1 ≤ (calculate_proximity_months ctx).2
      simp only [calculate_proximity_months]
      omega
    · exact ih r hr
  · intro fecha p hle ctx hval
    rw [generate_missing_months.eq_def, if_pos hle]
    show ∀ r ∈ (if validate_context ctx then _ else ([] : List Registro)),
      1 ≤ r.meses_prox_renovacion
    rw [if_neg hval]
    simp
  · intro fecha p hle
    rw [generate_missing_months.eq_def, if_neg hle]
    simp

/-- C9 (amended): for every context, months to renewal equals
`max 0 (duration - months_since_start)`; it is never negative and is
non-increasing as months advance.  It reaches 0 exactly when the contract
is no longer active — at the final active month
(`months_since_start = duration - 1`) its value is 1, not 0 as the claim
states (see the counterexample), and every record the ledger loop
actually generates carries a value of at least 1. -/
theorem c9_months_to_renewal :
    (∀ ctx : CalculationContext,
      (calculate_proximity_months ctx).2
        = max 0 (ctx.contrato.duracion_meses - ctx.meses_desde_inicio))
    ∧ (∀ ctx : CalculationContext, 0 ≤ (calculate_proximity_months ctx).2)
    ∧ (∀ ctx ctx' : CalculationContext,
        ctx.contrato.duracion_meses = ctx'.contrato.duracion_meses →
        ctx.meses_desde_inicio ≤ ctx'.meses_desde_inicio →
        (calculate_proximity_months ctx').2 ≤ (calculate_proximity_months ctx).2)
    ∧ (∀ ctx : CalculationContext,
        ctx.meses_desde_inicio = ctx.contrato.duracion_meses - 1 →
        (calculate_proximity_months ctx).2 = 1)
    ∧ (∀ ctx : CalculationContext,
        ((calculate_proximity_months ctx).2 = 0 ↔
          validate_contract_active ctx = false))
    ∧ (∀ (propiedad : Propiedad) (contrato : Contrato) (df : List (ℤ × ℚ))
        (fetchR : Fecha → Fecha → Option ℚ) (serv : Servicios)
        (lim fecha : Fecha) (p : ℚ),
        ∀ r ∈ generate_missing_months propiedad contrato df fetchR serv lim
          fecha p, 1 ≤ r.meses_prox_renovacion) := by
  have h1 : ∀ ctx : CalculationContext,
      (calculate_proximity_months ctx).2
        = max 0 (ctx.contrato.duracion_meses - ctx.meses_desde_inicio) := by
    intro ctx
    rfl
  refine ⟨h1, ?_, ?_, ?_, ?_, ?_⟩
  · intro ctx
    rw [h1]
    omega
  · intro ctx ctx' hdur hmes
    rw [h1, h1, hdur]
    omega
  · intro ctx hfin
    rw [h1, hfin]
    omega
  · intro ctx
    rw [h1]
    simp only [validate_contract_active, decide_eq_false_iff_not, not_lt]
    omega
  · exact gen_records_renewal_pos

/-- Counterexample to C9 as stated: at the final active month of a
12-month contract (months since start 11, still active; month 12 is no
longer active) the months to renewal counter is 1, not 0. -/
theorem c9_counterexample :
    (calculate_proximity_months (ctxAt 11)).2 = 1
    ∧ (calculate_proximity_months (ctxAt 11)).2 ≠ 0
    ∧ validate_contract_active (ctxAt 11) = true
    ∧ validate_contract_active (ctxAt 12) = false := by
  refine ⟨?_, ?_, ?_, ?_⟩ <;> decide

/-- Witness for C9 at concrete contexts of the sample contract. -/
theorem c9_witness :
    (calculate_proximity_months (ctxAt 5)).2
      ≤ (calculate_proximity_months (ctxAt 3)).2
    ∧ (calculate_proximity_months (ctxAt 11)).2 = 1
    ∧ ((calculate_proximity_months (ctxAt 12)).2 = 0 ↔
        validate_contract_active (ctxAt 12) = false) :=
  ⟨c9_months_to_renewal.2.2.1 (ctxAt 3) (ctxAt 5) rfl (by decide),
   c9_months_to_renewal.2.2.2.1 (ctxAt 11) (by decide),
   c9_months_to_renewal.2.2.2.2.1 (ctxAt 12)⟩

/-- C8: when a nonzero fixed commission override is present, the
commission installment divides the override amount by the plan count
inside the installment window (and is 0 outside it), while the deposit
installment still divides the base price; without an override the
commission leg divides the base price; the total is rounded at the point
of combination. -/
theorem c8_fixed_commission_override (pb m : ℚ) (dep : String) (mes : ℤ)
    (hm : m ≠ 0) :
    (mes ≤ 2 →
      (calcular_cuotas_detalladas pb "2 cuotas" dep mes
        (some m)).cuotas_comision = m / 2)
    ∧ (2 < mes →
      (calcular_cuotas_detalladas pb "2 cuotas" dep mes
        (some m)).cuotas_comision = 0)
    ∧ (mes ≤ 3 →
      (calcular_cuotas_detalladas pb "3 cuotas" dep mes
        (some m)).cuotas_comision = m / 3)
    ∧ (∀ com : String,
      (calcular_cuotas_detalladas pb com "3 cuotas" mes
        (some m)).cuotas_deposito = if mes ≤ 3 then pb / 3 else 0)
    ∧ (∀ com : String,
      (calcular_cuotas_detalladas pb com "2 cuotas" mes
        (some m)).cuotas_deposito = if mes ≤ 2 then pb / 2 else 0)
    ∧ ((calcular_cuotas_detalladas pb "2 cuotas" dep mes
        none).cuotas_comision = if mes ≤ 2 then pb / 2 else 0)
    ∧ ((calcular_cuotas_detalladas pb "3 cuotas" dep mes
        none).cuotas_comision = if mes ≤ 3 then pb / 3 else 0)
    ∧ (∀ (com dep2 : String) (mo : Option ℚ),
      (calcular_cuotas_detalladas pb com dep2 mes mo).total_cuotas
        = round2 ((calcular_cuotas_detalladas pb com dep2 mes
            mo).cuotas_comision
          + (calcular_cuotas_detalladas pb com dep2 mes mo).cuotas_deposito)) := by
  refine ⟨?_, ?_, ?_, ?_, ?_, ?_, ?_, ?_⟩
  · intro hmes
    simp [calcular_cuotas_detalladas, hm, hmes]
  · intro hmes
    have h2 : ¬ mes ≤ 2 := by omega
    simp [calcular_cuotas_detalladas, hm, h2]
  · intro hmes
    simp [calcular_cuotas_detalladas, hm, hmes]
  · intro com
    simp [calcular_cuotas_detalladas, hm]
  · intro com
    simp [calcular_cuotas_detalladas, hm]
  · simp [calcular_cuotas_detalladas]
  · simp [calcular_cuotas_detalladas]
  · intro com dep2 mo
    rfl

/-- Witness for C8: base price 300000 with a fixed override of 200000 in
two installments, first month — commission divides the override, deposit
divides the base price. -/
theorem c8_witness :
    (calcular_cuotas_detalladas 300000 "2 cuotas" "2 cuotas" 1
      (some 200000)).cuotas_comision = 200000 / 2
    ∧ (calcular_cuotas_detalladas 300000 "2 cuotas" "2 cuotas" 1
      (some 200000)).cuotas_deposito = 300000 / 2 := by
  have h := c8_fixed_commission_override 300000 200000 "2 cuotas" 1
    (by norm_num)
  refine ⟨h.1 (by norm_num), ?_⟩
  rw [h.2.2.2.2.1 "2 cuotas"]
  norm_num

/-- Fold congruence: two cycle-factor products agree when the per-cycle
factors agree below the bound. -/
theorem foldl_mul_congr (f1 f2 : ℕ → ℚ) :
    ∀ (n : ℕ) (a : ℚ), (∀ c, c < n → f1 c = f2 c) →
      (List.range n).foldl (fun acc c => acc * f1 c) a
        = (List.range n).foldl (fun acc c => acc * f2 c) a := by
  intro n
  induction n with
  | zero => simp
  | succ k ih =>
    intro a h
    rw [List.range_succ, List.foldl_append, List.foldl_append]
    simp only [List.foldl_cons, List.foldl_nil]
    rw [ih a (fun c hc => h c (by omega)), h k (by omega)]

/-- C5: a rate fetch failure in one cycle is local.  Full recompute under
the external index: replacing the failing fetch of cycle `j` by the
explicit neutral factor 1.0, with every other cycle untouched, leaves the
whole result unchanged — the loop already substitutes 1.0 for the failing
cycle and completes.  Incremental engine: a fetch failure for the cycle
ending at the current month returns the running price unchanged and the
call completes normally. -/
theorem c5_neutral_factor_on_failure :
    (∀ (P0 : ℚ) (act : String) (df : List (ℤ × ℚ))
       (fetchR fetchR2 : Fecha → Fecha → Option ℚ) (inicio ref : Fecha)
       (j : ℕ),
      fetchR (addMonths inicio ((j : ℤ) * (freq_map act : ℤ)))
             (addMonths inicio (((j : ℤ) + 1) * (freq_map act : ℤ))) = none →
      fetchR2 (addMonths inicio ((j : ℤ) * (freq_map act : ℤ)))
              (addMonths inicio (((j : ℤ) + 1) * (freq_map act : ℤ)))
        = some 1 →
      (∀ c : ℕ, c ≠ j →
        fetchR (addMonths inicio ((c : ℤ) * (freq_map act : ℤ)))
               (addMonths inicio (((c : ℤ) + 1) * (freq_map act : ℤ)))
          = fetchR2 (addMonths inicio ((c : ℤ) * (freq_map act : ℤ)))
                    (addMonths inicio (((c : ℤ) + 1) * (freq_map act : ℤ)))) →
      calcular_precio_base_acumulado P0 act .ICL df fetchR inicio ref
        = calcular_precio_base_acumulado P0 act .ICL df fetchR2 inicio ref)
    ∧ (∀ (fetchR : Fecha → Fecha → Option ℚ) (ctx : CalculationContext),
        ctx.contrato.indice = .ICL →
        fetchR (addMonths ctx.fecha_actual
            (-((freq_map ctx.contrato.actualizacion : ℕ) : ℤ)))
          ctx.fecha_actual = none →
        calculate_price_update fetchR ctx
          = ⟨ctx.precio_base_actual, none, false⟩) := by
  constructor
  · intro P0 act df fetchR fetchR2 inicio ref j hj hj2 hagree
    have hpoint : ∀ c : ℕ,
        (fetchR (addMonths inicio ((c : ℤ) * (freq_map act : ℤ)))
          (addMonths inicio (((c : ℤ) + 1) * (freq_map act : ℤ)))).getD 1
        = (fetchR2 (addMonths inicio ((c : ℤ) * (freq_map act : ℤ)))
          (addMonths inicio (((c : ℤ) + 1) * (freq_map act : ℤ)))).getD 1 := by
      intro c
      by_cases hc : c = j
      · subst hc
        rw [hj, hj2]
        rfl
      · rw [hagree c hc]
    simp only [calcular_precio_base_acumulado]
    split
    · rfl
    · rename_i hcz
      have hfold := foldl_mul_congr
        (fun c => (fetchR (addMonths inicio ((c : ℤ) * (freq_map act : ℤ)))
          (addMonths inicio (((c : ℤ) + 1) * (freq_map act : ℤ)))).getD 1)
        (fun c => (fetchR2 (addMonths inicio ((c : ℤ) * (freq_map act : ℤ)))
          (addMonths inicio (((c : ℤ) + 1) * (freq_map act : ℤ)))).getD 1)
        ((ref.ym - inicio.ym).fdiv ((freq_map act : ℕ) : ℤ)).toNat 1
        (fun c _ => hpoint c)
      rw [hfold]
      have hporc :
          (if (decide ((ref.ym - inicio.ym).fmod ((freq_map act : ℕ) : ℤ) = 0)
              && decide (0 < (ref.ym - inicio.ym).fdiv
                ((freq_map act : ℕ) : ℤ))) = true then
            (match fetchR (addMonths inicio
                (((((ref.ym - inicio.ym).fdiv
                  ((freq_map act : ℕ) : ℤ)).toNat : ℤ) - 1)
                  * ((freq_map act : ℕ) : ℤ)))
              (addMonths inicio
                ((((ref.ym - inicio.ym).fdiv
                  ((freq_map act : ℕ) : ℤ)).toNat : ℤ)
                  * ((freq_map act : ℕ) : ℤ))) with
            | some f => (f - 1) * 100
            | none => 0)
          else 0)
          = (if (decide ((ref.ym - inicio.ym).fmod
              ((freq_map act : ℕ) : ℤ) = 0)
              && decide (0 < (ref.ym - inicio.ym).fdiv
                ((freq_map act : ℕ) : ℤ))) = true then
            (match fetchR2 (addMonths inicio
                (((((ref.ym - inicio.ym).fdiv
                  ((freq_map act : ℕ) : ℤ)).toNat : ℤ) - 1)
                  * ((freq_map act : ℕ) : ℤ)))
              (addMonths inicio
                ((((ref.ym - inicio.ym).fdiv
                  ((freq_map act : ℕ) : ℤ)).toNat : ℤ)
                  * ((freq_map act : ℕ) : ℤ))) with
            | some f => (f - 1) * 100
            | none => 0)
          else 0) := by
        by_cases hap : (decide ((ref.ym - inicio.ym).fmod
            ((freq_map act : ℕ) : ℤ) = 0)
            && decide (0 < (ref.ym - inicio.ym).fdiv
              ((freq_map act : ℕ) : ℤ))) = true
        · rw [if_pos hap, if_pos hap]
          have hn : 1 ≤ ((ref.ym - inicio.ym).fdiv
              ((freq_map act : ℕ) : ℤ)).toNat := by
            simp only [Bool.and_eq_true, decide_eq_true_eq] at hap
            omega
          set n := ((ref.ym - inicio.ym).fdiv ((freq_map act : ℕ) : ℤ)).toNat
            with hndef
          have hk1 : ((n : ℤ) - 1) = (((n - 1 : ℕ)) : ℤ) := by omega
          have hk2 : (n : ℤ) = (((n - 1 : ℕ) : ℤ) + 1) := by omega
          rw [hk1, hk2]
          by_cases hc : (n - 1 : ℕ) = j
          · rw [hc, hj, hj2]
            norm_num
          · rw [hagree (n - 1) hc]
        · rw [if_neg hap, if_neg hap]
      rw [hporc]
  · intro fetchR ctx hind hfetch
    by_cases hsa : should_apply_update ctx = true
    · simp only [calculate_price_update, hsa, hind]
      rw [if_neg (by simp [hsa])]
      rw [hfetch]
      rfl
    · simp only [calculate_price_update]
      rw [if_pos (by simpa using hsa)]

/-- The sample contract under the external index policy. -/
def contratoIcl : Contrato := { contratoSample with indice := .ICL }

/-- Context of the sample external-index contract at a given number of
months since start. -/
def ctxIclAt (meses : ℤ) : CalculationContext :=
  create_context_for_month propSample contratoIcl ⟨meses, 1⟩ 100000 []
    servSample

/-- Witness for C5: a single-cycle run whose only fetch fails equals the
run where that cycle is the explicit neutral factor, and one failing
incremental step returns the price unchanged. -/
theorem c5_witness :
    calcular_precio_base_acumulado 100000 "trimestral" .ICL []
      (fun _ _ => none) ⟨0, 1⟩ ⟨3, 1⟩
      = calcular_precio_base_acumulado 100000 "trimestral" .ICL []
        (fun a _ => if a.ym = 0 then some 1 else none) ⟨0, 1⟩ ⟨3, 1⟩
    ∧ calculate_price_update (fun _ _ => none) (ctxIclAt 3)
      = ⟨(ctxIclAt 3).precio_base_actual, none, false⟩ := by
  constructor
  · refine c5_neutral_factor_on_failure.1 100000 "trimestral" [] _ _
      ⟨0, 1⟩ ⟨3, 1⟩ 0 rfl rfl ?_
    intro c hc
    show (none : Option ℚ) = _
    have hfm : ((freq_map "trimestral" : ℕ) : ℤ) = 3 := by decide
    simp only [addMonths, hfm]
    rw [if_neg]
    intro h
    omega
  · exact c5_neutral_factor_on_failure.2 (fun _ _ => none) (ctxIclAt 3)
      rfl rfl

/-- One ledger month step on the running base price: the price component
of `calculate_price_update` in the context the ledger builds for that
month (day 1 dates, as after a resume). -/
def step_update (propiedad : Propiedad) (contrato : Contrato) (df : DfInfl)
    (fetchR : Fecha → Fecha → Option ℚ) (serv : Servicios) (p : ℚ)
    (fecha : Fecha) : ℚ :=
  (calculate_price_update fetchR
    (create_context_for_month propiedad contrato fecha p df serv)).precio

/-- Run `calculate_price_update` month by month: starting price `p` at
month index `a`, over `n` consecutive months. -/
def run_updates (propiedad : Propiedad) (contrato : Contrato) (df : DfInfl)
    (fetchR : Fecha → Fecha → Option ℚ) (serv : Servicios) (p : ℚ)
    (a : ℤ) : ℕ → ℚ
  | 0 => p
  | Nat.succ k => run_updates propiedad contrato df fetchR serv
      (step_update propiedad contrato df fetchR serv p ⟨a, 1⟩) (a + 1) k

/-- C1 (amended): incremental continuation is self-consistent — resuming
the month-by-month `calculate_price_update` chain from the
(month `a + k`, price after `k` months) state of a one-pass run produces
the same price after any further `n` months as the uninterrupted one-pass
run.  The claim as stated — that the full recompute
`calcular_precio_base_acumulado` agrees with this chain — fails because
the chain rounds at every escalation while the full recompute rounds once
at the end (see the counterexample). -/
theorem c1_incremental_resume_equivalence (propiedad : Propiedad)
    (contrato : Contrato) (df : List (ℤ × ℚ))
    (fetchR : Fecha → Fecha → Option ℚ) (serv : Servicios) :
    ∀ (k n : ℕ) (p : ℚ) (a : ℤ),
      run_updates propiedad contrato df fetchR serv p a (k + n)
        = run_updates propiedad contrato df fetchR serv
            (run_updates propiedad contrato df fetchR serv p a k)
            (a + (k : ℤ)) n := by
  intro k
  induction k with
  | zero =>
    intro n p a
    simp [run_updates]
  | succ k ih =>
    intro n p a
    have h1 : k + 1 + n = (k + n) + 1 := by omega
    rw [h1]
    show run_updates propiedad contrato df fetchR serv
        (step_update propiedad contrato df fetchR serv p ⟨a, 1⟩)
        (a + 1) (k + n) = _
    rw [ih n (step_update propiedad contrato df fetchR serv p ⟨a, 1⟩) (a + 1)]
    have h2 : (a + 1) + (k : ℤ) = a + ((k + 1 : ℕ) : ℤ) := by
      push_cast
      ring
    rw [h2]
    rfl

/-- A quarterly contract at 1 percent per cycle with original price 0.49,
separating the two escalation modes through rounding. -/
def contratoC1 : Contrato :=
  ⟨⟨0, 1⟩, 36, 49 / 100, "trimestral", .fijo (some 1), 10, "Pagado", "Pagado"⟩

/-- One incremental step of the 1 percent quarterly contract: escalate by
1 percent (with rounding) at positive multiples of 3, otherwise keep the
price. -/
theorem step_update_contratoC1 (p : ℚ) (m : ℤ) :
    step_update propSample contratoC1 [] (fun _ _ => none) servSample p
      ⟨m, 1⟩
      = if 0 < m ∧ m.fmod 3 = 0 then round2 (p * (1 + 1 / 100)) else p := by
  have hfm : ((freq_map contratoC1.actualizacion : ℕ) : ℤ) = 3 := by decide
  by_cases hc : 0 < m ∧ m.fmod 3 = 0
  · rw [if_pos hc]
    have hsa : should_apply_update (create_context_for_month propSample
        contratoC1 ⟨m, 1⟩ p [] servSample) = true := by
      simp only [should_apply_update, create_context_for_month,
        calculate_months_since_start, hfm]
      simp only [Bool.and_eq_true, decide_eq_true_eq]
      constructor
      · show 0 < m - (0 : ℤ)
        omega
      · show (m - (0 : ℤ)).fmod 3 = 0
        rw [sub_zero]
        exact hc.2
    simp only [step_update, calculate_price_update, hsa]
    rw [if_neg (by simp)]
    rfl
  · rw [if_neg hc]
    have hsa : should_apply_update (create_context_for_month propSample
        contratoC1 ⟨m, 1⟩ p [] servSample) = false := by
      simp only [should_apply_update, create_context_for_month,
        calculate_months_since_start, hfm]
      simp only [Bool.and_eq_false_iff, decide_eq_false_iff_not]
      by_cases h0 : 0 < m
      · refine Or.inr ?_
        show ¬ (m - (0 : ℤ)).fmod 3 = 0
        intro hmod
        rw [sub_zero] at hmod
        exact hc ⟨h0, hmod⟩
      · refine Or.inl ?_
        show ¬ 0 < m - (0 : ℤ)
        omega
    simp only [step_update, calculate_price_update, hsa]
    rw [if_pos (by simp)]
    rfl

/-- Counterexample to C1 as stated: with original price 0.49 and a fixed
1 percent quarterly index, the full recompute gives 0.50 at month 6
(one final rounding of 0.49 * 1.01 * 1.01 = 0.499849), while resuming the
incremental chain from the month-0 state of the full recompute gives 0.49
(the escalations of months 3 and 6 round to 0.49 each time). -/
theorem c1_counterexample :
    (calcular_precio_base_acumulado (49 / 100) "trimestral" (.fijo (some 1))
      [] (fun _ _ => none) ⟨0, 1⟩ ⟨6, 1⟩).precio = 1 / 2
    ∧ run_updates propSample contratoC1 [] (fun _ _ => none) servSample
        ((calcular_precio_base_acumulado (49 / 100) "trimestral"
          (.fijo (some 1)) [] (fun _ _ => none) ⟨0, 1⟩ ⟨0, 1⟩).precio) 1 6
      = 49 / 100
    ∧ (1 / 2 : ℚ) ≠ 49 / 100 := by
  have hstep1 : round2 ((49 : ℚ) / 100 * (1 + 1 / 100)) = 49 / 100 := by
    norm_num [round2, round_eq]
  refine ⟨?_, ?_, by norm_num⟩
  · simp only [calcular_precio_base_acumulado]
    rw [if_neg (by decide)]
    show round2 ((49 : ℚ) / 100 * (1 + 1 / 100)
      ^ (((6 : ℤ) - 0).fdiv ((freq_map "trimestral" : ℕ) : ℤ))) = 1 / 2
    rw [show ((6 : ℤ) - 0).fdiv ((freq_map "trimestral" : ℕ) : ℤ)
      = ((2 : ℕ) : ℤ) from by decide, zpow_natCast]
    norm_num [round2, round_eq]
  · have h0 : (calcular_precio_base_acumulado (49 / 100) "trimestral"
        (.fijo (some 1)) [] (fun _ _ => none) ⟨0, 1⟩ ⟨0, 1⟩).precio
        = 49 / 100 := by
      simp only [calcular_precio_base_acumulado]
      rw [if_pos (by decide)]
    rw [h0]
    simp only [run_updates]
    norm_num [step_update_contratoC1]
    simp only [show Int.fmod (1 : ℤ) 3 = 1 from by decide,
      show Int.fmod (2 : ℤ) 3 = 2 from by decide,
      show Int.fmod (3 : ℤ) 3 = 0 from by decide,
      show Int.fmod (4 : ℤ) 3 = 1 from by decide,
      show Int.fmod (5 : ℤ) 3 = 2 from by decide,
      show Int.fmod (6 : ℤ) 3 = 0 from by decide]
    norm_num [round2, round_eq]

/-- Pointwise combination of run summaries (counters add, error lists
concatenate). -/
def Summary.combine (s t : Summary) : Summary :=
  ⟨s.total_registros + t.total_registros,
   s.propiedades_procesadas + t.propiedades_procesadas,
   s.propiedades_omitidas + t.propiedades_omitidas,
   s.errores ++ t.errores⟩

/-- The batch fold started from any intermediate state equals the fold
from the empty state, appended onto that state. -/
theorem ghu_from_state (lim : Fecha) (df : DfInfl)
    (fetchR : Fecha → Fecha → Option ℚ)
    (hist : String → Option PropertyHistoricalData) :
    ∀ (filas : List Fila) (acc : List Registro) (s : Summary),
      filas.foldl (ghu_step lim df fetchR hist) (acc, s)
        = (acc ++ (generate_historical_until lim df fetchR hist filas).1,
           Summary.combine s
             (generate_historical_until lim df fetchR hist filas).2) := by
  intro filas
  induction filas with
  | nil =>
    intro acc s
    cases s
    simp [generate_historical_until, Summary.combine, Summary.empty]
  | cons f rest ih =>
    intro acc s
    have hG : generate_historical_until lim df fetchR hist (f :: rest)
        = ((ghu_step lim df fetchR hist ([], Summary.empty) f).1
            ++ (generate_historical_until lim df fetchR hist rest).1,
           Summary.combine
             (ghu_step lim df fetchR hist ([], Summary.empty) f).2
             (generate_historical_until lim df fetchR hist rest).2) := by
      show (f :: rest).foldl (ghu_step lim df fetchR hist)
        ([], Summary.empty) = _
      rw [List.foldl_cons, ih]
    rw [List.foldl_cons, ih, hG]
    cases hp : process_property lim df fetchR hist f <;>
      cases s <;>
      simp [ghu_step, hp, Summary.combine, Summary.empty,
        List.append_assoc] <;>
      omega

/-- C6: per-property failure isolation.  If processing one row raises,
the batch produces exactly the records it would produce without that row
(in particular zero records for the failing property), the error summary
gains exactly one entry, recorded against that property, in position, and
one more property counts as skipped; the batch itself always completes. -/
theorem c6_property_failure_isolated (lim : Fecha) (df : List (ℤ × ℚ))
    (fetchR : Fecha → Fecha → Option ℚ)
    (hist : String → Option PropertyHistoricalData)
    (pre post : List Fila) (bad : Fila) (e : String)
    (hbad : process_property lim df fetchR hist bad = .error e) :
    (generate_historical_until lim df fetchR hist (pre ++ bad :: post)).1
      = (generate_historical_until lim df fetchR hist pre).1
        ++ (generate_historical_until lim df fetchR hist post).1
    ∧ (generate_historical_until lim df fetchR hist (pre ++ post)).1
      = (generate_historical_until lim df fetchR hist pre).1
        ++ (generate_historical_until lim df fetchR hist post).1
    ∧ (generate_historical_until lim df fetchR hist
        (pre ++ bad :: post)).2.errores
      = (generate_historical_until lim df fetchR hist pre).2.errores
        ++ [(bad.nombre_inmueble.getD "Desconocido") ++ ": " ++ e]
        ++ (generate_historical_until lim df fetchR hist post).2.errores
    ∧ (generate_historical_until lim df fetchR hist
        (pre ++ bad :: post)).2.propiedades_omitidas
      = (generate_historical_until lim df fetchR hist
          pre).2.propiedades_omitidas
        + (generate_historical_until lim df fetchR hist
          post).2.propiedades_omitidas + 1
    ∧ (generate_historical_until lim df fetchR hist
        (pre ++ bad :: post)).2.propiedades_procesadas
      = (generate_historical_until lim df fetchR hist
          (pre ++ post)).2.propiedades_procesadas := by
  have hsplit : generate_historical_until lim df fetchR hist
      (pre ++ bad :: post)
      = (bad :: post).foldl (ghu_step lim df fetchR hist)
        (generate_historical_until lim df fetchR hist pre) := by
    show (pre ++ bad :: post).foldl (ghu_step lim df fetchR hist)
      ([], Summary.empty) = _
    rw [List.foldl_append]
    rfl
  have hsplit2 : generate_historical_until lim df fetchR hist (pre ++ post)
      = post.foldl (ghu_step lim df fetchR hist)
        (generate_historical_until lim df fetchR hist pre) := by
    show (pre ++ post).foldl (ghu_step lim df fetchR hist)
      ([], Summary.empty) = _
    rw [List.foldl_append]
    rfl
  have hstep : ghu_step lim df fetchR hist
      (generate_historical_until lim df fetchR hist pre) bad
      = ((generate_historical_until lim df fetchR hist pre).1,
         { (generate_historical_until lim df fetchR hist pre).2 with
           propiedades_omitidas := (generate_historical_until lim df fetchR
             hist pre).2.propiedades_omitidas + 1
           errores := (generate_historical_until lim df fetchR
             hist pre).2.errores
             ++ [(bad.nombre_inmueble.getD "Desconocido") ++ ": " ++ e] }) := by
    show ghu_step lim df fetchR hist
      ((generate_historical_until lim df fetchR hist pre).1,
       (generate_historical_until lim df fetchR hist pre).2) bad = _
    simp [ghu_step, hbad]
  rw [hsplit, hsplit2, List.foldl_cons, hstep,
    ghu_from_state lim df fetchR hist post,
    ghu_from_state lim df fetchR hist post]
  refine ⟨rfl, rfl, ?_, ?_, ?_⟩ <;>
    (simp [Summary.combine, List.append_assoc]; try omega)

/-- A complete, valid master row (quarterly fixed-percentage contract). -/
def filaGood : Fila :=
  { nombre_inmueble := some "Casa A"
    dir_inmueble := some "Calle 1"
    inquilino := some "Inquilino 1"
    propietario := some "Dueno 1"
    precio_original := some 100000
    fecha_inicio_contrato := some ⟨0, 1⟩
    duracion_meses := some 12
    actualizacion := some "trimestral"
    indice := some (.fijo (some 10))
    comision_inmo := some 10
    comision := none
    deposito := none
    municipalidad := none
    luz := none
    gas := none
    expensas := none
    descuento := none
    monto_comision := none }

/-- A row for property "B" with the required field `inquilino` missing. -/
def filaBadB : Fila :=
  { filaGood with nombre_inmueble := some "B", inquilino := none }

/-- Witness for C6: a two-row batch whose second row lacks a required
field produces exactly the records of the first row and one error entry
against property "B". -/
theorem c6_witness :
    (generate_historical_until ⟨0, 1⟩ [] (fun _ _ => none) (fun _ => none)
        [filaGood, filaBadB]).1
      = (generate_historical_until ⟨0, 1⟩ [] (fun _ _ => none)
          (fun _ => none) [filaGood]).1
        ++ (generate_historical_until ⟨0, 1⟩ [] (fun _ _ => none)
          (fun _ => none) []).1
    ∧ (generate_historical_until ⟨0, 1⟩ [] (fun _ _ => none) (fun _ => none)
        [filaGood, filaBadB]).2.errores
      = ["B: Campo obligatorio faltante: inquilino"] := by
  have h := c6_property_failure_isolated ⟨0, 1⟩ [] (fun _ _ => none)
    (fun _ => none) [filaGood] [] filaBadB
    "Campo obligatorio faltante: inquilino" (by rfl)
  exact ⟨h.1, h.2.2.1.trans (by rfl)⟩

/-- Months of the records the month loop generates: all at or after the
resume month, and strictly increasing. -/
theorem gen_months_sorted (propiedad : Propiedad) (contrato : Contrato)
    (df : DfInfl) (fetchR : Fecha → Fecha → Option ℚ) (serv : Servicios)
    (lim : Fecha) (fecha : Fecha) (p : ℚ) :
    (∀ r ∈ generate_missing_months propiedad contrato df fetchR serv lim
      fecha p, fecha.ym ≤ r.mes_actual)
    ∧ ((generate_missing_months propiedad contrato df fetchR serv lim
      fecha p).map Registro.mes_actual).Pairwise (· < ·) := by
  refine generate_missing_months.induct propiedad contrato df fetchR serv lim
    (fun fecha p =>
      (∀ r ∈ generate_missing_months propiedad contrato df fetchR serv lim
        fecha p, fecha.ym ≤ r.mes_actual)
      ∧ ((generate_missing_months propiedad contrato df fetchR serv lim
        fecha p).map Registro.mes_actual).Pairwise (· < ·))
    ?_ ?_ ?_ fecha p
  · intro fecha p hle ctx hval registro ih
    rw [generate_missing_months.eq_def, if_pos hle]
    show (∀ r ∈ (if validate_context ctx then registro ::
        generate_missing_months propiedad contrato df fetchR serv lim
          (get_next_month_date fecha) registro.precio_original else []),
        fecha.ym ≤ r.mes_actual) ∧ _
    rw [if_pos hval]
    have hmes : registro.mes_actual = fecha.ym := rfl
    constructor
    · intro r hr
      rcases List.mem_cons.mp hr with rfl | hr
      · rw [hmes]
      · have := ih.1 r hr
        simp only [get_next_month_date] at this
        omega
    · rw [List.map_cons]
      refine List.pairwise_cons.mpr ⟨?_, ih.2⟩
      intro m hm
      obtain ⟨r, hrmem, rfl⟩ := List.mem_map.mp hm
      have := ih.1 r hrmem
      simp only [get_next_month_date] at this
      rw [hmes]
      omega
  · intro fecha p hle ctx hval
    rw [generate_missing_months.eq_def, if_pos hle]
    show (∀ r ∈ (if validate_context ctx then _ else ([] : List Registro)),
        fecha.ym ≤ r.mes_actual) ∧ _
    rw [if_neg hval]
    simp
  · intro fecha p hle
    rw [generate_missing_months.eq_def, if_neg hle]
    simp

/-- In a key-sorted run of records of one property, the month components
are sorted. -/
theorem pairwise_mes_of_pairwise_recle (P : String) :
    ∀ l : List Registro, l.Pairwise RecLe →
      (∀ r ∈ l, r.nombre_inmueble = P) →
      (l.map Registro.mes_actual).Pairwise (· ≤ ·) := by
  intro l
  induction l with
  | nil => simp
  | cons a l ih =>
    intro hp hn
    obtain ⟨ha, hl⟩ := List.pairwise_cons.mp hp
    rw [List.map_cons]
    refine List.pairwise_cons.mpr
      ⟨?_, ih hl (fun r hr => hn r (List.mem_cons_of_mem _ hr))⟩
    intro m hm
    obtain ⟨r, hrmem, rfl⟩ := List.mem_map.mp hm
    rcases ha r hrmem with h | ⟨_, hle⟩
    · exfalso
      rw [hn a (List.mem_cons_self a l), hn r (List.mem_cons_of_mem _ hrmem)]
        at h
      exact lt_irrefl _ h
    · exact hle

/-- C7 (amended): the write step sorts the collected records by
(property name, month) ascending while preserving their multiset
(prior-plus-new records of the successfully processed properties — prior
records of a failing property are not rewritten, see the counterexample);
resuming starts at the month immediately after the last previously
recorded month with the last recorded base price; for a property whose
prior months are strictly increasing and bounded by the recorded last
month, the merged per-property record list has strictly increasing
months; and in the sorted sheet the month sequence of any property with
duplicate-free months is strictly increasing. -/
theorem c7_ledger_merge_invariant :
    (∀ rs : List Registro, (sortRecords rs).Sorted RecLe
      ∧ List.Perm (sortRecords rs) rs)
    ∧ (∀ (contrato : Contrato) (info : PropertyHistoricalData) (u : ℤ),
        info.ultimo_mes = some u →
        determine_starting_point contrato (some info)
          = (info.registros_existentes, info.ultimo_precio_base, ⟨u + 1, 1⟩))
    ∧ (∀ (propiedad : Propiedad) (contrato : Contrato) (df : List (ℤ × ℚ))
        (fetchR : Fecha → Fecha → Option ℚ) (serv : Servicios)
        (lim : Fecha) (info : PropertyHistoricalData) (u : ℤ),
        info.ultimo_mes = some u →
        ((info.registros_existentes.map Registro.mes_actual).Pairwise
          (· < ·)) →
        (∀ m ∈ info.registros_existentes.map Registro.mes_actual, m ≤ u) →
        (((determine_starting_point contrato (some info)).1
          ++ generate_missing_months propiedad contrato df fetchR serv lim
            (determine_starting_point contrato (some info)).2.2
            (determine_starting_point contrato (some info)).2.1).map
          Registro.mes_actual).Pairwise (· < ·))
    ∧ (∀ (rs : List Registro) (P : String),
        ((rs.filter (fun r => r.nombre_inmueble == P)).map
          Registro.mes_actual).Nodup →
        (((sortRecords rs).filter (fun r => r.nombre_inmueble == P)).map
          Registro.mes_actual).Pairwise (· < ·)) := by
  have hsort : ∀ rs : List Registro, (sortRecords rs).Sorted RecLe
      ∧ List.Perm (sortRecords rs) rs := by
    intro rs
    exact ⟨List.sorted_insertionSort RecLe rs,
      List.perm_insertionSort RecLe rs⟩
  have hdet : ∀ (contrato : Contrato) (info : PropertyHistoricalData)
      (u : ℤ), info.ultimo_mes = some u →
      determine_starting_point contrato (some info)
        = (info.registros_existentes, info.ultimo_precio_base,
          ⟨u + 1, 1⟩) := by
    intro contrato info u hu
    simp [determine_starting_point, hu]
  refine ⟨hsort, hdet, ?_, ?_⟩
  · intro propiedad contrato df fetchR serv lim info u hu hinc hbound
    rw [hdet contrato info u hu]
    rw [List.map_append]
    refine List.pairwise_append.mpr ⟨hinc, ?_, ?_⟩
    · exact (gen_months_sorted propiedad contrato df fetchR serv lim
        ⟨u + 1, 1⟩ info.ultimo_precio_base).2
    · intro a ha b hb
      obtain ⟨r, hrmem, rfl⟩ := List.mem_map.mp hb
      have hge := (gen_months_sorted propiedad contrato df fetchR serv lim
        ⟨u + 1, 1⟩ info.ultimo_precio_base).1 r hrmem
      have hle := hbound a ha
      simp only at hge
      omega
  · intro rs P hnodup
    have hperm : List.Perm
        ((sortRecords rs).filter (fun r => r.nombre_inmueble == P))
        (rs.filter (fun r => r.nombre_inmueble == P)) :=
      (List.perm_insertionSort RecLe rs).filter _
    have hnodup2 : (((sortRecords rs).filter
        (fun r => r.nombre_inmueble == P)).map Registro.mes_actual).Nodup :=
      (hperm.map Registro.mes_actual).nodup_iff.mpr hnodup
    have hsorted : ((sortRecords rs).filter
        (fun r => r.nombre_inmueble == P)).Pairwise RecLe :=
      (List.sorted_insertionSort RecLe rs).sublist
        (List.filter_sublist _)
    have hnames : ∀ r ∈ (sortRecords rs).filter
        (fun r => r.nombre_inmueble == P), r.nombre_inmueble = P := by
      intro r hr
      have := List.of_mem_filter hr
      simpa using this
    have hmesle := pairwise_mes_of_pairwise_recle P _ hsorted hnames
    exact List.Sorted.lt_of_le hmesle hnodup2

/-- A prior-sheet record of a property "B" (externally persisted data). -/
def regB : Registro :=
  ⟨"B", "x", "x", "x", 0, 100, 100, 100, 0, 0, 0, 0, 0, 0, 0, 10, 90,
   false, none, 3, 12⟩

/-- Witness for C7 at concrete inputs: the resume point after a last
recorded month 5 is month 6 with the recorded price, and a concrete
two-record sheet of one property sorts to strictly increasing months. -/
theorem c7_witness :
    determine_starting_point contratoSample
      (some ⟨"Casa A", some 5, 110000, []⟩)
      = ([], 110000, ⟨6, 1⟩)
    ∧ ((((sortRecords [generate_monthly_record (fun _ _ => none) (ctxAt 1),
          generate_monthly_record (fun _ _ => none) (ctxAt 0)]).filter
          (fun r => r.nombre_inmueble == "Casa A")).map
          Registro.mes_actual).Pairwise (· < ·)) :=
  ⟨c7_ledger_merge_invariant.2.1 contratoSample ⟨"Casa A", some 5, 110000, []⟩
      5 rfl,
   c7_ledger_merge_invariant.2.2.2 _ "Casa A" (by decide)⟩

/-- Counterexample to C7 as stated: in a run where property "B" fails
validation (missing required field) while another property succeeds, the
sheet is cleared and rewritten with only the collected records — the
prior record of "B" is dropped from the final output, so the final output
is not all prior records plus the newly generated ones. -/
theorem c7_counterexample :
    regB ∈ [regB]
    ∧ regB ∉ run_final_sheet ⟨0, 1⟩ [] (fun _ _ => none) [regB]
        [filaGood, filaBadB] := by
  have hgen0 : ∀ p : ℚ, generate_missing_months propSample contratoSample []
      (fun _ _ => none) servSample ⟨0, 1⟩ (get_next_month_date ⟨0, 1⟩) p
      = [] := by
    intro p
    rw [generate_missing_months.eq_def, if_neg (by decide)]
  have hgen1 : generate_missing_months propSample contratoSample []
      (fun _ _ => none) servSample ⟨0, 1⟩ ⟨0, 1⟩ 100000
      = [generate_monthly_record (fun _ _ => none) (ctxAt 0)] := by
    rw [generate_missing_months.eq_def, if_pos (by decide)]
    show (if validate_context (ctxAt 0) then
      generate_monthly_record (fun _ _ => none) (ctxAt 0) ::
        generate_missing_months propSample contratoSample []
          (fun _ _ => none) servSample ⟨0, 1⟩ (get_next_month_date ⟨0, 1⟩)
          (generate_monthly_record (fun _ _ => none)
            (ctxAt 0)).precio_original
      else []) = _
    rw [if_pos (by decide), hgen0]
  have hent : create_entities_from_data filaGood
      = .ok (propSample, contratoSample) := rfl
  have hproc : process_property ⟨0, 1⟩ [] (fun _ _ => none)
      (fun n => (read_existing_historical [regB]).lookup n) filaGood
      = .ok [generate_monthly_record (fun _ _ => none) (ctxAt 0)] := by
    simp only [process_property, hent]
    rw [if_neg (by decide)]
    rw [show determine_starting_point contratoSample
      ((read_existing_historical [regB]).lookup propSample.nombre)
      = (([] : List Registro), (100000 : ℚ), (⟨0, 1⟩ : Fecha)) from rfl]
    rw [show extract_additional_services filaGood = servSample from rfl]
    rw [hgen1]
    rfl
  have hprocB : process_property ⟨0, 1⟩ [] (fun _ _ => none)
      (fun n => (read_existing_historical [regB]).lookup n) filaBadB
      = .error "Campo obligatorio faltante: inquilino" := rfl
  have hrec : (generate_historical_until ⟨0, 1⟩ [] (fun _ _ => none)
      (fun n => (read_existing_historical [regB]).lookup n)
      [filaGood, filaBadB]).1
      = [generate_monthly_record (fun _ _ => none) (ctxAt 0)] := by
    simp only [generate_historical_until, List.foldl_cons, List.foldl_nil,
      ghu_step, hproc, hprocB]
    rfl
  refine ⟨List.mem_singleton_self regB, ?_⟩
  show regB ∉ (if (generate_historical_until ⟨0, 1⟩ [] (fun _ _ => none)
    (fun n => (read_existing_historical [regB]).lookup n)
    [filaGood, filaBadB]).1.isEmpty then [regB]
    else sortRecords (generate_historical_until ⟨0, 1⟩ [] (fun _ _ => none)
      (fun n => (read_existing_historical [regB]).lookup n)
      [filaGood, filaBadB]).1)
  rw [hrec]
  rw [if_neg (by simp)]
  rw [show sortRecords [generate_monthly_record (fun _ _ => none) (ctxAt 0)]
    = [generate_monthly_record (fun _ _ => none) (ctxAt 0)] from rfl]
  intro hmem
  have heq : regB = generate_monthly_record (fun _ _ => none) (ctxAt 0) :=
    List.mem_singleton.mp hmem
  have hname := congrArg Registro.nombre_inmueble heq
  have : ("B" : String) = "Casa A" := hname
  exact absurd this (by decide)
